import Mathlib

/-!
Verification of `send-to-printer.c`, a single-shot raw print-job transport
built on the Windows spooler API.  The program is straight-line code whose
only branching is on the success of each spooler call, so we embed it as a
pure function of an environment that records the outcome the OS would give
to each call (whether it succeeds, the job id returned by the spooler, the
byte count stored by the write call, and the last-error code).  The run
produces the process exit code, the sequence of spooler API calls issued
(the trace), and the sequence of lines printed (one constructor per
printf format string in the source).
-/

namespace SendToPrinter

/-- Outcome the operating system gives to each spooler call of one run:
`openOk` is the boolean result of OpenPrinter, `jobId` the DWORD returned
by StartDocPrinter (0 means failure), `startPageOk` / `writeOk` /
`endPageOk` / `endDocOk` / `closeOk` the boolean results of the remaining
calls, `bytesWritten` the value WritePrinter stores through its out
parameter on success, and `lastError` the GetLastError value. -/
structure PrinterEnv where
  openOk : Bool
  lastError : Nat
  jobId : Nat
  startPageOk : Bool
  writeOk : Bool
  bytesWritten : Nat
  endPageOk : Bool
  endDocOk : Bool
  closeOk : Bool
deriving DecidableEq

/-- The DOC_INFO_1 record passed to StartDocPrinter (source lines 41-43):
document name, optional output file, and data-type tag. -/
structure DOC_INFO_1 where
  pDocName : String
  pOutputFile : Option String
  pDatatype : String
deriving DecidableEq

/-- One spooler API call issued by the program, with the arguments that
matter for the contract. -/
inductive APICall where
  | openPrinter (name : String)
  | startDocPrinter (info : DOC_INFO_1)
  | startPagePrinter
  | writePrinter (buf : List Nat) (size : Nat)
  | endPagePrinter
  | endDocPrinter
  | closePrinter
deriving DecidableEq

/-- One line printed by the program; each constructor corresponds to one
printf format string of the source, carrying the %d argument where the
source prints one. -/
inductive Line where
  | banner1
  | banner2
  | errOpen
  | errCode (n : Nat)
  | okOpened
  | errStartDoc
  | okDocStarted (jobId : Nat)
  | errStartPage
  | okPageStarted
  | errWrite
  | okWrote (n : Nat)
  | errEndPage
  | okPageEnded
  | errEndDoc
  | okDocEnded
  | successBanner
  | checkPrinter
deriving DecidableEq

/-- The exact text of each printed line, as in the source (printf newlines
dropped; a line is one entry of the output list). -/
def Line.render : Line → String
  | Line.banner1 => "Windows RAW Printer API Test"
  | Line.banner2 => "============================="
  | Line.errOpen => "ERROR: Could not open printer"
  | Line.errCode n => s!"Error code: {n}"
  | Line.okOpened => "OK: Printer opened"
  | Line.errStartDoc => "ERROR: Could not start document"
  | Line.okDocStarted j => s!"OK: Document started (Job ID: {j})"
  | Line.errStartPage => "ERROR: Could not start page"
  | Line.okPageStarted => "OK: Page started"
  | Line.errWrite => "ERROR: Could not write to printer"
  | Line.okWrote n => s!"OK: Wrote {n} bytes"
  | Line.errEndPage => "ERROR: Could not end page"
  | Line.okPageEnded => "OK: Page ended"
  | Line.errEndDoc => "ERROR: Could not end document"
  | Line.okDocEnded => "OK: Document ended"
  | Line.successBanner => "SUCCESS: Print job submitted!"
  | Line.checkPrinter => "** CHECK YOUR PRINTER **"

/-- Result of one run: process exit code, trace of spooler calls, printed
lines in order. -/
structure RunResult where
  exitCode : Nat
  trace : List APICall
  output : List Line
deriving DecidableEq

/-- The printer name passed to OpenPrinter (source line 32). -/
def printerName : String := "EPSON TM-T20III Receipt"

/-- The ESC/POS test payload (source lines 18-25): ESC @ initialize,
"TEST\n", "Line 1\n", "Line 2\n", four blank lines, GS V 0 cut. -/
def data : List Nat :=
  [0x1B, 0x40,
   0x54, 0x45, 0x53, 0x54, 0x0A,
   0x4C, 0x69, 0x6E, 0x65, 0x20, 0x31, 0x0A,
   0x4C, 0x69, 0x6E, 0x65, 0x20, 0x32, 0x0A,
   0x0A, 0x0A, 0x0A, 0x0A,
   0x1D, 0x56, 0x00]

/-- sizeof(data) (source line 26). -/
def dwDataSize : Nat := data.length

/-- The DOC_INFO_1 value the program builds (source lines 41-43):
pDocName = "RAW Test", pOutputFile = NULL, pDatatype = "RAW". -/
def DocInfo : DOC_INFO_1 :=
  { pDocName := "RAW Test", pOutputFile := none, pDatatype := "RAW" }

/-- The whole program (source function main, lines 11-99), as a function of
the environment.  Each `if` mirrors one `if` of the source; the trace and
output are accumulated exactly in program order.  The return value of the
final ClosePrinter call (line 93) is not inspected by the source, so
`closeOk` is never read. -/
def main (env : PrinterEnv) : RunResult :=
  let e := env.lastError
  let header : List Line := [Line.banner1, Line.banner2]
  if env.openOk = false then
    { exitCode := 1,
      trace := [APICall.openPrinter printerName],
      output := header ++ [Line.errOpen, Line.errCode e] }
  else
    let j := env.jobId
    let o1 := header ++ [Line.okOpened]
    let t1 := [APICall.openPrinter printerName, APICall.startDocPrinter DocInfo]
    if j = 0 then
      { exitCode := 1,
        trace := t1 ++ [APICall.closePrinter],
        output := o1 ++ [Line.errStartDoc, Line.errCode e] }
    else
      let o2 := o1 ++ [Line.okDocStarted j]
      let t2 := t1 ++ [APICall.startPagePrinter]
      if env.startPageOk = false then
        { exitCode := 1,
          trace := t2 ++ [APICall.endDocPrinter, APICall.closePrinter],
          output := o2 ++ [Line.errStartPage] }
      else
        let o3 := o2 ++ [Line.okPageStarted]
        let t3 := t2 ++ [APICall.writePrinter data dwDataSize]
        if env.writeOk = false then
          { exitCode := 1,
            trace := t3 ++ [APICall.endPagePrinter, APICall.endDocPrinter,
                            APICall.closePrinter],
            output := o3 ++ [Line.errWrite, Line.errCode e] }
        else
          let n := env.bytesWritten
          let o4 := o3 ++ [Line.okWrote n]
          let o5 := o4 ++ (if env.endPageOk = false then [Line.errEndPage] else [])
                       ++ [Line.okPageEnded]
          let o6 := o5 ++ (if env.endDocOk = false then [Line.errEndDoc] else [])
                       ++ [Line.okDocEnded]
          { exitCode := 0,
            trace := t3 ++ [APICall.endPagePrinter, APICall.endDocPrinter,
                            APICall.closePrinter],
            output := o6 ++ [Line.successBanner, Line.checkPrinter] }

/-- The spec's error taxonomy (§7). -/
inductive PrintError where
  | DeviceUnavailable
  | JobStartFailed
  | PageStartFailed
  | WriteFailed
  | ShortWrite
deriving DecidableEq

/-- Which fatal error a run reports, read off the source's exit-1 branches
in program order (each branch is identified by the diagnostic it prints:
lines 33, 48, 58, 68).  The source has no branch that inspects the byte
count, so no branch maps to ShortWrite. -/
def fatalError (env : PrinterEnv) : Option PrintError :=
  if env.openOk = false then some PrintError.DeviceUnavailable
  else if env.jobId = 0 then some PrintError.JobStartFailed
  else if env.startPageOk = false then some PrintError.PageStartFailed
  else if env.writeOk = false then some PrintError.WriteFailed
  else none

/-- Recognizer for the StartPagePrinter call in a trace. -/
def APICall.isStartPage : APICall → Bool
  | APICall.startPagePrinter => true
  | _ => false

/-- Recognizer for the WritePrinter call in a trace. -/
def APICall.isWrite : APICall → Bool
  | APICall.writePrinter _ _ => true
  | _ => false

/-- Recognizer for the EndPagePrinter call in a trace. -/
def APICall.isEndPage : APICall → Bool
  | APICall.endPagePrinter => true
  | _ => false

/-- Recognizer for the EndDocPrinter call in a trace. -/
def APICall.isEndDoc : APICall → Bool
  | APICall.endDocPrinter => true
  | _ => false

/-- Recognizer for the ClosePrinter call in a trace. -/
def APICall.isClose : APICall → Bool
  | APICall.closePrinter => true
  | _ => false

/-- Recognizer for any teardown call (end page, end document, close). -/
def APICall.isTeardown (c : APICall) : Bool :=
  c.isEndPage || c.isEndDoc || c.isClose

/-- Environment in which every spooler call succeeds and the write accepts
the full payload. -/
def envAllOk : PrinterEnv :=
  { openOk := true, lastError := 0, jobId := 1, startPageOk := true,
    writeOk := true, bytesWritten := 28, endPageOk := true,
    endDocOk := true, closeOk := true }

/-- Environment in which the write call succeeds but the spooler accepts
only 10 of the payload bytes. -/
def envShort : PrinterEnv := { envAllOk with bytesWritten := 10 }

/-- Environment in which StartDocPrinter fails (returns 0). -/
def envJobFail : PrinterEnv := { envAllOk with jobId := 0 }

/-- Environment in which everything succeeds through write but
EndPagePrinter fails. -/
def envEndPageFail : PrinterEnv := { envAllOk with endPageOk := false }

/-- Environment in which everything succeeds through write but every
teardown call fails. -/
def envTeardownFail : PrinterEnv :=
  { envAllOk with endPageOk := false, endDocOk := false, closeOk := false }

/-- Environment in which WritePrinter fails and the teardown calls fail
too. -/
def envWriteFail : PrinterEnv :=
  { envAllOk with writeOk := false, endPageOk := false, endDocOk := false }

/-- Environment identical to envAllOk except that ClosePrinter fails. -/
def envCloseFail : PrinterEnv := { envAllOk with closeOk := false }

/-- Claim C2: ClosePrinter is invoked exactly once if and only if
OpenPrinter succeeded, on every exit path; when open fails, close is never
invoked. -/
theorem close_called_iff_open_succeeded (env : PrinterEnv) :
    List.countP APICall.isClose (main env).trace
      = (if env.openOk then 1 else 0) := by
  obtain ⟨op, le, j, sp, w, bw, epk, edk, ck⟩ := env
  cases op <;> by_cases hj : j = 0 <;> cases sp <;> cases w <;>
    simp [main, hj, List.countP, List.countP.go, APICall.isClose]

/-- Claim C1, counterexample: with open, start-job and start-page
succeeding and the write call itself succeeding but the spooler accepting
only 10 of the 28 payload bytes, the program exits with code 0 and prints
the success banner, so a short write is reported as a (partial) success,
not as a ShortWrite failure with exit code 1. -/
theorem short_write_counterexample :
    envShort.bytesWritten < dwDataSize ∧
    (main envShort).exitCode = 0 ∧
    Line.successBanner ∈ (main envShort).output ∧
    fatalError envShort ≠ some PrintError.ShortWrite := by decide

/-- Claim C1 (amended): whenever open, start-job, start-page succeed and
the write call itself succeeds, the submission is reported as a success
(exit code 0, success banner) regardless of the number of bytes the
spooler accepted; the byte count is never compared with the payload
length, so a lesser accepted count is still reported as success and no
ShortWrite failure exists in the program. -/
theorem write_call_success_reported_as_success (env : PrinterEnv)
    (h1 : env.openOk = true) (h2 : env.jobId ≠ 0)
    (h3 : env.startPageOk = true) (h4 : env.writeOk = true) :
    (main env).exitCode = 0 ∧
    Line.successBanner ∈ (main env).output ∧
    Line.okWrote env.bytesWritten ∈ (main env).output ∧
    fatalError env = none := by
  simp [main, fatalError, h1, h2, h3, h4]

/-- Witness for the amended claim C1, at the short-write environment. -/
theorem write_call_success_reported_as_success_witness :
    (main envShort).exitCode = 0 ∧
    Line.successBanner ∈ (main envShort).output ∧
    Line.okWrote envShort.bytesWritten ∈ (main envShort).output ∧
    fatalError envShort = none :=
  write_call_success_reported_as_success envShort rfl (by decide) rfl rfl

/-- Claim C3: every StartDocPrinter call in any run carries a DOC_INFO_1
whose data-type tag is the RAW marker and whose output-file field is the
no-file sentinel NULL. -/
theorem startdoc_always_raw_no_output_file (env : PrinterEnv)
    (info : DOC_INFO_1)
    (h : APICall.startDocPrinter info ∈ (main env).trace) :
    info.pDatatype = "RAW" ∧ info.pOutputFile = none := by
  obtain ⟨op, le, j, sp, w, bw, epk, edk, ck⟩ := env
  cases op <;> by_cases hj : j = 0 <;> cases sp <;> cases w <;>
    simp [main, hj, DocInfo] at h <;> simp [h]

/-- Witness for claim C3: the concrete DOC_INFO_1 passed in the all-success
run. -/
theorem startdoc_always_raw_no_output_file_witness :
    DocInfo.pDatatype = "RAW" ∧ DocInfo.pOutputFile = none :=
  startdoc_always_raw_no_output_file envAllOk DocInfo (by decide)

/-- Claim C4, counterexample: the canonical payload has length 28, not
29. -/
theorem payload_length_counterexample :
    data.length = 28 ∧ ¬ (data.length = 29) := by decide

/-- Claim C4 (amended): the canonical payload (initialize sequence +
"TEST\n" + two text lines + 4 blank lines + cut sequence) has length
exactly 28 bytes, and a fully successful submission of it (the write call
succeeds with all 28 bytes accepted) reports bytesWritten = 28. -/
theorem payload_length_28 (env : PrinterEnv)
    (h1 : env.openOk = true) (h2 : env.jobId ≠ 0)
    (h3 : env.startPageOk = true) (h4 : env.writeOk = true)
    (h5 : env.bytesWritten = dwDataSize) :
    data.length = 28 ∧
    (main env).exitCode = 0 ∧
    Line.okWrote 28 ∈ (main env).output := by
  have hd : dwDataSize = 28 := by decide
  rw [hd] at h5
  simp [main, h1, h2, h3, h4, h5, data]

/-- Witness for the amended claim C4, at the all-success environment. -/
theorem payload_length_28_witness :
    data.length = 28 ∧
    (main envAllOk).exitCode = 0 ∧
    Line.okWrote 28 ∈ (main envAllOk).output :=
  payload_length_28 envAllOk rfl (by decide) rfl rfl (by decide)

/-- Claim C5: when the open succeeds but StartDocPrinter fails (returns
0), none of StartPagePrinter, WritePrinter, EndPagePrinter, EndDocPrinter
is ever invoked, ClosePrinter is invoked exactly once, and the run reports
the JobStartFailed error with exit code 1. -/
theorem jobstart_failure_path (env : PrinterEnv)
    (h1 : env.openOk = true) (h2 : env.jobId = 0) :
    List.countP APICall.isStartPage (main env).trace = 0 ∧
    List.countP APICall.isWrite (main env).trace = 0 ∧
    List.countP APICall.isEndPage (main env).trace = 0 ∧
    List.countP APICall.isEndDoc (main env).trace = 0 ∧
    List.countP APICall.isClose (main env).trace = 1 ∧
    (main env).exitCode = 1 ∧
    fatalError env = some PrintError.JobStartFailed ∧
    Line.errStartDoc ∈ (main env).output := by
  simp [main, fatalError, h1, h2, List.countP, List.countP.go,
    APICall.isStartPage, APICall.isWrite, APICall.isEndPage,
    APICall.isEndDoc, APICall.isClose]

/-- Witness for claim C5, at the environment where StartDocPrinter
returns 0. -/
theorem jobstart_failure_path_witness :
    List.countP APICall.isStartPage (main envJobFail).trace = 0 ∧
    List.countP APICall.isWrite (main envJobFail).trace = 0 ∧
    List.countP APICall.isEndPage (main envJobFail).trace = 0 ∧
    List.countP APICall.isEndDoc (main envJobFail).trace = 0 ∧
    List.countP APICall.isClose (main envJobFail).trace = 1 ∧
    (main envJobFail).exitCode = 1 ∧
    fatalError envJobFail = some PrintError.JobStartFailed ∧
    Line.errStartDoc ∈ (main envJobFail).output :=
  jobstart_failure_path envJobFail rfl rfl

/-- Claim C6: when the write call fails, or delivers fewer bytes than the
payload length, EndPagePrinter and EndDocPrinter are each still invoked
exactly once before the program returns, and their individual outcomes
change neither the exit code nor the reported fatal error. -/
theorem write_failure_still_ends_page_and_job (env : PrinterEnv)
    (ep ed : Bool)
    (h1 : env.openOk = true) (h2 : env.jobId ≠ 0)
    (h3 : env.startPageOk = true)
    (h4 : env.writeOk = false ∨ env.bytesWritten < dwDataSize) :
    List.countP APICall.isEndPage (main env).trace = 1 ∧
    List.countP APICall.isEndDoc (main env).trace = 1 ∧
    (main { env with endPageOk := ep, endDocOk := ed }).exitCode
      = (main env).exitCode ∧
    fatalError { env with endPageOk := ep, endDocOk := ed }
      = fatalError env := by
  by_cases hw : env.writeOk = false
  · simp [main, fatalError, h1, h2, h3, hw, List.countP, List.countP.go,
      APICall.isEndPage, APICall.isEndDoc]
  · have hw2 : env.writeOk = true := by
      revert hw; cases env.writeOk <;> simp
    simp [main, fatalError, h1, h2, h3, hw2, List.countP, List.countP.go,
      APICall.isEndPage, APICall.isEndDoc]

/-- Witness for claim C6, at the environment whose write call fails. -/
theorem write_failure_still_ends_page_and_job_witness :
    List.countP APICall.isEndPage (main envWriteFail).trace = 1 ∧
    List.countP APICall.isEndDoc (main envWriteFail).trace = 1 ∧
    (main { envWriteFail with endPageOk := true, endDocOk := true }).exitCode
      = (main envWriteFail).exitCode ∧
    fatalError { envWriteFail with endPageOk := true, endDocOk := true }
      = fatalError envWriteFail :=
  write_failure_still_ends_page_and_job envWriteFail true true rfl
    (by decide) rfl (Or.inl rfl)

/-- Claim C7, counterexample: the run is one and the same whether
ClosePrinter succeeds or fails -- the source (line 93) discards its return
value -- so a close failure is never reported; moreover, on the write-fail
exit path the end-page and end-job return values (lines 70-71) are also
discarded, so their failures produce no diagnostic there either. -/
theorem close_failure_unreported_counterexample :
    envCloseFail.closeOk = false ∧ envAllOk.closeOk = true ∧
    main envCloseFail = main envAllOk ∧
    envWriteFail.endPageOk = false ∧ envWriteFail.endDocOk = false ∧
    Line.errEndPage ∉ (main envWriteFail).output ∧
    Line.errEndDoc ∉ (main envWriteFail).output := by decide

/-- Claim C7 (amended): after a successful write, a failure of end-page or
end-job is reported as a diagnostic line alongside the primary result; but
a failure of close is never reported (the program ignores ClosePrinter's
return value, so the run does not depend on it at all), and on the
write-failure exit path end-page and end-job failures are not reported
either. -/
theorem teardown_warnings_reported (env : PrinterEnv) (b : Bool)
    (h1 : env.openOk = true) (h2 : env.jobId ≠ 0)
    (h3 : env.startPageOk = true) :
    (env.writeOk = true → env.endPageOk = false →
      Line.errEndPage ∈ (main env).output) ∧
    (env.writeOk = true → env.endDocOk = false →
      Line.errEndDoc ∈ (main env).output) ∧
    (env.writeOk = false →
      Line.errEndPage ∉ (main env).output ∧
      Line.errEndDoc ∉ (main env).output) ∧
    main { env with closeOk := b } = main env := by
  refine ⟨?_, ?_, ?_, rfl⟩
  · intro h4 h5; simp [main, h1, h2, h3, h4, h5]
  · intro h4 h5; simp [main, h1, h2, h3, h4, h5]
  · intro h4; simp [main, h1, h2, h3, h4]

/-- Witness for the amended claim C7, at the environment where every
teardown call fails after a successful write. -/
theorem teardown_warnings_reported_witness :
    Line.errEndPage ∈ (main envTeardownFail).output ∧
    Line.errEndDoc ∈ (main envTeardownFail).output ∧
    main { envTeardownFail with closeOk := true } = main envTeardownFail :=
  ⟨(teardown_warnings_reported envTeardownFail true rfl (by decide) rfl).1
      rfl rfl,
   (teardown_warnings_reported envTeardownFail true rfl (by decide)
      rfl).2.1 rfl rfl,
   (teardown_warnings_reported envTeardownFail true rfl (by decide)
      rfl).2.2.2⟩

/-- Claim C8: on every exit path, the teardown calls that occur do so in
the relative order end-page, end-job, close: the teardown subsequence of
any trace is a sublist of [EndPagePrinter, EndDocPrinter, ClosePrinter]
(which also shows each occurs at most once). -/
theorem teardown_order (env : PrinterEnv) :
    List.Sublist ((main env).trace.filter APICall.isTeardown)
      [APICall.endPagePrinter, APICall.endDocPrinter, APICall.closePrinter]
    := by
  obtain ⟨op, le, j, sp, w, bw, epk, edk, ck⟩ := env
  cases op <;> by_cases hj : j = 0 <;> cases sp <;> cases w <;>
    simp [main, hj, APICall.isTeardown, APICall.isEndPage,
      APICall.isEndDoc, APICall.isClose]

/-- Claim C9: when open, start-job, start-page and write all succeed but a
teardown step (end-page or end-job) fails, the run still exits with code
0, prints the success banner and the byte count, reports no fatal error,
and attaches the corresponding teardown diagnostic. -/
theorem teardown_failure_keeps_success (env : PrinterEnv)
    (h1 : env.openOk = true) (h2 : env.jobId ≠ 0)
    (h3 : env.startPageOk = true) (h4 : env.writeOk = true)
    (h5 : env.endPageOk = false ∨ env.endDocOk = false) :
    (main env).exitCode = 0 ∧
    Line.successBanner ∈ (main env).output ∧
    Line.okWrote env.bytesWritten ∈ (main env).output ∧
    fatalError env = none ∧
    (Line.errEndPage ∈ (main env).output ∨
      Line.errEndDoc ∈ (main env).output) := by
  refine ⟨?_, ?_, ?_, ?_, ?_⟩
  · simp [main, h1, h2, h3, h4]
  · simp [main, h1, h2, h3, h4]
  · simp [main, h1, h2, h3, h4]
  · simp [fatalError, h1, h2, h3, h4]
  · rcases h5 with h5 | h5
    · exact Or.inl (by simp [main, h1, h2, h3, h4, h5])
    · exact Or.inr (by simp [main, h1, h2, h3, h4, h5])

/-- Witness for claim C9, at the environment where only EndPagePrinter
fails. -/
theorem teardown_failure_keeps_success_witness :
    (main envEndPageFail).exitCode = 0 ∧
    Line.successBanner ∈ (main envEndPageFail).output ∧
    Line.okWrote envEndPageFail.bytesWritten ∈ (main envEndPageFail).output ∧
    fatalError envEndPageFail = none ∧
    (Line.errEndPage ∈ (main envEndPageFail).output ∨
      Line.errEndDoc ∈ (main envEndPageFail).output) :=
  teardown_failure_keeps_success envEndPageFail rfl (by decide) rfl rfl
    (Or.inl rfl)

/-- Claim C10: on every run reaching teardown, the progress lines "OK:
Page ended" and "OK: Document ended" are printed unconditionally after the
end-page and end-job calls, even when the call failed: when end-page
(resp. end-job) fails, its error diagnostic appears immediately before
the corresponding OK line, so the per-step success message does not imply
that the step succeeded. -/
theorem ok_lines_printed_unconditionally (env : PrinterEnv)
    (h1 : env.openOk = true) (h2 : env.jobId ≠ 0)
    (h3 : env.startPageOk = true) (h4 : env.writeOk = true) :
    Line.okPageEnded ∈ (main env).output ∧
    Line.okDocEnded ∈ (main env).output ∧
    (env.endPageOk = false →
      ∃ s t, (main env).output
        = s ++ [Line.errEndPage, Line.okPageEnded] ++ t) ∧
    (env.endDocOk = false →
      ∃ s t, (main env).output
        = s ++ [Line.errEndDoc, Line.okDocEnded] ++ t) ∧
    Line.okPageEnded.render = "OK: Page ended" ∧
    Line.okDocEnded.render = "OK: Document ended" := by
  refine ⟨?_, ?_, ?_, ?_, rfl, rfl⟩
  · simp [main, h1, h2, h3, h4]
  · simp [main, h1, h2, h3, h4]
  · intro h5
    refine ⟨[Line.banner1, Line.banner2, Line.okOpened,
        Line.okDocStarted env.jobId, Line.okPageStarted,
        Line.okWrote env.bytesWritten],
      (if env.endDocOk = false then [Line.errEndDoc] else [])
        ++ [Line.okDocEnded, Line.successBanner, Line.checkPrinter], ?_⟩
    simp [main, h1, h2, h3, h4, h5]
  · intro h6
    refine ⟨[Line.banner1, Line.banner2, Line.okOpened,
        Line.okDocStarted env.jobId, Line.okPageStarted,
        Line.okWrote env.bytesWritten]
        ++ (if env.endPageOk = false then [Line.errEndPage] else [])
        ++ [Line.okPageEnded],
      [Line.successBanner, Line.checkPrinter], ?_⟩
    simp [main, h1, h2, h3, h4, h6]

/-- Witness for claim C10, at the environment where both end-page and
end-job fail after a successful write. -/
theorem ok_lines_printed_unconditionally_witness :
    Line.okPageEnded ∈ (main envTeardownFail).output ∧
    Line.okDocEnded ∈ (main envTeardownFail).output ∧
    (∃ s t, (main envTeardownFail).output
      = s ++ [Line.errEndPage, Line.okPageEnded] ++ t) :=
  ⟨(ok_lines_printed_unconditionally envTeardownFail rfl (by decide)
      rfl rfl).1,
   (ok_lines_printed_unconditionally envTeardownFail rfl (by decide)
      rfl rfl).2.1,
   (ok_lines_printed_unconditionally envTeardownFail rfl (by decide)
      rfl rfl).2.2.1 rfl⟩

end SendToPrinter
